import Mathlib

/-!
Verification of the `crud-guide` repository: a minimal HTTP CRUD service
(axum + sqlx + Postgres) exposing create/read operations on a `User`
resource.

Shallow embedding notes:
* `User`, `CreateUser`, `UpdateUser` mirror `src/models/user.rs`.
  `i32` columns are modelled as `Int`; `DateTime<Utc>` timestamps as `Int`.
* The database (`users` table + the serial id sequence + clock) is a
  `DbState`.  The handlers in `src/handlers/users.rs` are state-passing
  functions.  A driver-level failure of the single sqlx call a handler
  makes (`fetch_one`) is injected through `fault : Option String`, the
  message carried by the `sqlx::Error`; `fault = none` means the backend
  executes the query.  `fetch_one` on a query returning zero rows yields
  `sqlx::Error::RowNotFound`, whose display text is `rowNotFoundMsg`,
  flowing through the same `map_err` as any other error.
* A handler outcome is `HandlerResult`: `ok status user` for
  `Ok((StatusCode, Json<User>))`, `err status msg` for
  `Err((StatusCode, String))`.
* `create_routes` mirrors `src/routes.rs`; `create_pool` mirrors
  `src/db.rs`, with the process environment as `String → Option String`
  and the `.expect` panic on a missing `DATABASE_URL` (startup fatal,
  process never serves) modelled as `none`.
-/

namespace CrudGuide

/-- `User` row, from `src/models/user.rs` (`id, name, email, age, created_at, updated_at`). -/
structure User where
  id : Int
  name : String
  email : String
  age : Option Int
  created_at : Int
  updated_at : Int
deriving DecidableEq, Repr

/-- Create DTO, from `src/models/user.rs`: no id, no timestamps. -/
structure CreateUser where
  name : String
  email : String
  age : Option Int
deriving DecidableEq, Repr

/-- Update DTO, from `src/models/user.rs`; defined but consumed by no operation. -/
structure UpdateUser where
  name : Option String
  email : Option String
  age : Option Int
deriving DecidableEq, Repr

/-- Storage state: the `users` table rows, the serial id sequence, and the clock
used for the system-assigned timestamps. -/
structure DbState where
  users : List User
  nextId : Int
  now : Int
deriving DecidableEq, Repr

/-- Handler outcome: `Ok((status, Json(user)))` or `Err((status, message))`. -/
inductive HandlerResult where
  | ok : Nat → User → HandlerResult
  | err : Nat → String → HandlerResult
deriving DecidableEq, Repr

/-- Display text of `sqlx::Error::RowNotFound`, produced by `fetch_one`
when the query returns zero rows. -/
def rowNotFoundMsg : String :=
  "no rows returned by a query that expected to return at least one row"

/-- Semantics of the INSERT in `create_user`: the backend assigns the next
serial id and the timestamps and returns the full row (`RETURNING id, name,
email, age, created_at, updated_at`). -/
def insertUser (st : DbState) (p : CreateUser) : User × DbState :=
  let u : User :=
    { id := st.nextId, name := p.name, email := p.email, age := p.age,
      created_at := st.now, updated_at := st.now }
  (u, { st with users := st.users ++ [u], nextId := st.nextId + 1 })

/-- `create_user` from `src/handlers/users.rs` (lines 11-37): runs the INSERT
via `fetch_one`; any sqlx error is mapped to
`(500, "Failed to create user: " ++ e)`; success is `(201 CREATED, user)`. -/
def create_user (fault : Option String) (st : DbState) (p : CreateUser) :
    HandlerResult × DbState :=
  match fault with
  | some e => (HandlerResult.err 500 ("Failed to create user: " ++ e), st)
  | none =>
    let r := insertUser st p
    (HandlerResult.ok 201 r.1, r.2)

/-- Point lookup `SELECT ... FROM users WHERE id = $1`. -/
def findUser (st : DbState) (id : Int) : Option User :=
  st.users.find? (fun v => v.id == id)

/-- `get_user` from `src/handlers/users.rs` (lines 40-67): runs the SELECT via
`fetch_one`; zero rows surface as `sqlx::Error::RowNotFound` and take the same
`map_err` branch as any driver error, giving
`(500, "Failed to get user: " ++ e)`; success is `(200 OK, user)`. -/
def get_user (fault : Option String) (st : DbState) (id : Int) :
    HandlerResult × DbState :=
  match fault with
  | some e => (HandlerResult.err 500 ("Failed to get user: " ++ e), st)
  | none =>
    match findUser st id with
    | some u => (HandlerResult.ok 200 u, st)
    | none =>
      (HandlerResult.err 500 ("Failed to get user: " ++ rowNotFoundMsg), st)

/-- `health` from `src/handlers/health.rs`: probes the database with
`SELECT 1`; always responds `200` with `status: ok`, and `database` reflecting
the probe outcome. The JSON body is modelled as its key/value pairs. -/
def health (probeOk : Bool) : Nat × List (String × String) :=
  (200,
    [("status", "ok"),
     ("database", if probeOk then "connected" else "disconnected")])

/-- Entry of the axum route table. -/
structure Route where
  method : String
  path : String
deriving DecidableEq, Repr

/-- `create_routes` from `src/routes.rs`: exactly two routes are registered. -/
def create_routes : List Route :=
  [{ method := "GET", path := "/health" },
   { method := "POST", path := "/users" }]

/-- Configuration of the sqlx pool built by `create_pool`. -/
structure PoolConfig where
  database_url : String
  max_connections : Nat
  acquire_timeout_secs : Nat
deriving DecidableEq, Repr

/-- `create_pool` from `src/db.rs`: reads `DATABASE_URL` from the environment,
panicking (`.expect`, modelled as `none`) when it is absent, and builds a pool
with `max_connections(5)` and `acquire_timeout(30s)`. -/
def create_pool (env : String → Option String) : Option PoolConfig :=
  match env "DATABASE_URL" with
  | none => none
  | some url =>
    some { database_url := url, max_connections := 5, acquire_timeout_secs := 30 }

/-- Every row of the table carries an id below the serial sequence value:
ids are system-assigned and never reused. -/
def DbState.WF (st : DbState) : Prop :=
  ∀ v ∈ st.users, v.id < st.nextId

instance (st : DbState) : Decidable st.WF := by
  unfold DbState.WF; infer_instance

theorem find?_append_fresh (l : List User) (u : User)
    (h : ∀ v ∈ l, v.id ≠ u.id) :
    (l ++ [u]).find? (fun v => v.id == u.id) = some u := by
  induction l with
  | nil => simp
  | cons a l ih =>
    have ha : (a.id == u.id) = false := by
      simpa using h a (by simp)
    simp only [List.cons_append, List.find?, ha]
    exact ih fun v hv => h v (by simp [hv])

/-- C1: for every CreateUser input, on the backend success path `create_user`
returns HTTP 201 with a fully populated User whose name, email and age equal
the input's, and whose identifier is freshly assigned: distinct from every
previously assigned identifier. -/
theorem C1_create_returns_fresh_user (st : DbState) (p : CreateUser)
    (h : st.WF) :
    ∃ u, (create_user none st p).1 = HandlerResult.ok 201 u ∧
      u.name = p.name ∧ u.email = p.email ∧ u.age = p.age ∧
      ∀ v ∈ st.users, v.id ≠ u.id := by
  refine ⟨(insertUser st p).1, rfl, rfl, rfl, rfl, ?_⟩
  intro v hv
  have hlt := h v hv
  simp only [insertUser]
  omega

/-- C1 witness at a concrete one-row state and the spec's sample input. -/
theorem C1_witness :
    ∃ u, (create_user none ⟨[⟨1, "Bob", "bob@example.com", none, 0, 0⟩], 2, 7⟩
        ⟨"Ann", "ann@example.com", some 30⟩).1 = HandlerResult.ok 201 u ∧
      u.name = "Ann" ∧ u.email = "ann@example.com" ∧ u.age = some 30 ∧
      ∀ v ∈ [(⟨1, "Bob", "bob@example.com", none, 0, 0⟩ : User)], v.id ≠ u.id :=
  C1_create_returns_fresh_user
    ⟨[⟨1, "Bob", "bob@example.com", none, 0, 0⟩], 2, 7⟩
    ⟨"Ann", "ann@example.com", some 30⟩ (by decide)

/-- C2: when `create_user` succeeds with user `u`, a subsequent
`get_user` on `u.id` against the resulting state returns 200 with a User equal
to `u` in all fields, leaving the state unchanged. -/
theorem C2_get_after_create (st : DbState) (p : CreateUser)
    (u : User) (st' : DbState) (h : st.WF)
    (hc : create_user none st p = (HandlerResult.ok 201 u, st')) :
    get_user none st' u.id = (HandlerResult.ok 200 u, st') := by
  have hu : u = (insertUser st p).1 := by
    have := congrArg Prod.fst hc
    simpa [create_user] using this.symm
  have hst : st' = (insertUser st p).2 := by
    have := congrArg Prod.snd hc
    simpa [create_user] using this.symm
  subst hu hst
  have hfind : findUser (insertUser st p).2 (insertUser st p).1.id
      = some (insertUser st p).1 := by
    unfold findUser insertUser
    exact find?_append_fresh st.users _ fun v hv => by
      have := h v hv
      simp only
      omega
  simp [get_user, hfind]

/-- C2 witness: creating Ann in the empty store, then fetching her id. -/
theorem C2_witness :
    get_user none ⟨[⟨1, "Ann", "ann@example.com", some 30, 5, 5⟩], 2, 5⟩ 1
      = (HandlerResult.ok 200 ⟨1, "Ann", "ann@example.com", some 30, 5, 5⟩,
         ⟨[⟨1, "Ann", "ann@example.com", some 30, 5, 5⟩], 2, 5⟩) :=
  C2_get_after_create ⟨[], 1, 5⟩ ⟨"Ann", "ann@example.com", some 30⟩
    ⟨1, "Ann", "ann@example.com", some 30, 5, 5⟩
    ⟨[⟨1, "Ann", "ann@example.com", some 30, 5, 5⟩], 2, 5⟩
    (by decide) rfl

/-- C3: `get_user` does not distinguish zero rows from a driver-level error:
a lookup on an id with no row is literally equal to a run whose driver failed
with the RowNotFound message, every injected failure yields
`err 500 ("Failed to get user: " ++ e)`, and the zero-row outcome is that same
500 shape — never a distinct not-found outcome. -/
theorem C3_not_found_indistinguishable (st : DbState) (id : Int)
    (h : findUser st id = none) :
    get_user none st id = get_user (some rowNotFoundMsg) st id ∧
    (get_user none st id).1
      = HandlerResult.err 500 ("Failed to get user: " ++ rowNotFoundMsg) ∧
    ∀ e, (get_user (some e) st id).1
      = HandlerResult.err 500 ("Failed to get user: " ++ e) := by
  refine ⟨?_, ?_, fun e => rfl⟩ <;> simp [get_user, h]

/-- C3 witness: fetching id 42 from the empty store. -/
theorem C3_witness :
    get_user none ⟨[], 1, 0⟩ 42 = get_user (some rowNotFoundMsg) ⟨[], 1, 0⟩ 42 ∧
    (get_user none ⟨[], 1, 0⟩ 42).1
      = HandlerResult.err 500 ("Failed to get user: " ++ rowNotFoundMsg) ∧
    ∀ e, (get_user (some e) ⟨[], 1, 0⟩ 42).1
      = HandlerResult.err 500 ("Failed to get user: " ++ e) :=
  C3_not_found_indistinguishable ⟨[], 1, 0⟩ 42 rfl

/-- C4 counterexample: `create_user` does not reject an input whose name and
email are both empty strings; it proceeds with the insert and returns 201 with
the empty fields stored. -/
theorem C4_counterexample :
    (create_user none ⟨[], 1, 0⟩ ⟨"", "", none⟩).1
      = HandlerResult.ok 201 ⟨1, "", "", none, 0, 0⟩ ∧
    (create_user none ⟨[], 1, 0⟩ ⟨"", "", none⟩).2.users
      = [⟨1, "", "", none, 0, 0⟩] :=
  ⟨rfl, rfl⟩

/-- C4 amended: the handler performs no validation of its own before the
insert — presence of name/email as strings and of age as an optional integer
is enforced only by the typed `CreateUser` shape; every `CreateUser`, empty
strings included, is inserted and answered with 201. -/
theorem C4_no_handler_validation (st : DbState) (p : CreateUser) :
    (create_user none st p).1
      = HandlerResult.ok 201
          ⟨st.nextId, p.name, p.email, p.age, st.now, st.now⟩ := rfl

/-- C5 counterexample: `create_routes` registers no GET route for a user-by-id
path (neither `/users/{id}` nor the `/users/:id` spelling): the `get_user`
handler is not wired into the HTTP surface. -/
theorem C5_counterexample :
    ¬ ∃ r ∈ create_routes,
      r.method = "GET" ∧ (r.path = "/users/\x7bid\x7d" ∨ r.path = "/users/:id") := by
  decide

/-- C5 amended: the `get_user` handler implements GET-by-id semantics — 200
with the full User on success, 500 with plain-text error detail on failure —
but `create_routes` registers only GET `/health` and POST `/users`, so no
`/users/\x7bid\x7d` route is part of the HTTP surface. -/
theorem C5_get_user_unrouted :
    create_routes = [{ method := "GET", path := "/health" },
                     { method := "POST", path := "/users" }] ∧
    (∀ st id u, findUser st id = some u →
      get_user none st id = (HandlerResult.ok 200 u, st)) ∧
    (∀ st id e, (get_user (some e) st id).1
      = HandlerResult.err 500 ("Failed to get user: " ++ e)) := by
  refine ⟨rfl, fun st id u h => ?_, fun st id e => rfl⟩
  simp [get_user, h]

/-- C5 witness: the handler clauses applied at a concrete store. -/
theorem C5_witness :
    get_user none ⟨[⟨3, "Cara", "cara@example.com", none, 1, 1⟩], 4, 9⟩ 3
      = (HandlerResult.ok 200 ⟨3, "Cara", "cara@example.com", none, 1, 1⟩,
         ⟨[⟨3, "Cara", "cara@example.com", none, 1, 1⟩], 4, 9⟩) :=
  C5_get_user_unrouted.2.1
    ⟨[⟨3, "Cara", "cara@example.com", none, 1, 1⟩], 4, 9⟩ 3
    ⟨3, "Cara", "cara@example.com", none, 1, 1⟩ rfl

/-- C6: `create_pool` reads the connection string from the environment and
fails fast (no pool, process never serves) when `DATABASE_URL` is absent;
when present, the pool is configured with exactly 5 max connections and a
30-second acquisition timeout. -/
theorem C6_create_pool_config (env : String → Option String) :
    (env "DATABASE_URL" = none → create_pool env = none) ∧
    (∀ url, env "DATABASE_URL" = some url →
      create_pool env
        = some { database_url := url, max_connections := 5,
                 acquire_timeout_secs := 30 }) := by
  constructor
  · intro h; simp [create_pool, h]
  · intro url h; simp [create_pool, h]

/-- C6 witness: an empty environment fails fast; an environment carrying a
connection string yields the 5-connection, 30-second pool. -/
theorem C6_witness :
    create_pool (fun _ => none) = none ∧
    create_pool (fun _ => some "postgres://localhost/crud")
      = some { database_url := "postgres://localhost/crud",
               max_connections := 5, acquire_timeout_secs := 30 } :=
  ⟨(C6_create_pool_config (fun _ => none)).1 rfl,
   (C6_create_pool_config (fun _ => some "postgres://localhost/crud")).2
     "postgres://localhost/crud" rfl⟩

/-- C8: every storage failure during create or get-by-id is handled at the
handler boundary into a 500 response whose non-empty body carries the
underlying detail message verbatim as a suffix; nothing propagates unhandled. -/
theorem C8_storage_errors_surfaced (st : DbState) (p : CreateUser)
    (id : Int) (e : String) :
    (create_user (some e) st p).1
      = HandlerResult.err 500 ("Failed to create user: " ++ e) ∧
    (get_user (some e) st id).1
      = HandlerResult.err 500 ("Failed to get user: " ++ e) ∧
    0 < ("Failed to create user: " ++ e).length ∧
    0 < ("Failed to get user: " ++ e).length := by
  refine ⟨rfl, rfl, ?_, ?_⟩ <;>
    · simp only [String.length_append]
      have : (0 : Nat) < "Failed to get user: ".length ∧
          (0 : Nat) < "Failed to create user: ".length := by decide
      omega

/-- C9: for every probe outcome, `health` answers HTTP 200 with
`status: ok`; only the `database` field varies, `connected` on probe success
and `disconnected` on probe failure. -/
theorem C9_health_always_ok (probeOk : Bool) :
    (health probeOk).1 = 200 ∧
    (health probeOk).2
      = [("status", "ok"),
         ("database", if probeOk then "connected" else "disconnected")] :=
  ⟨rfl, rfl⟩

/-- C10: `get_user` is read-only: on success, on a zero-row miss and on a
driver-level failure alike, the stored state is returned unchanged. -/
theorem C10_get_user_readonly (fault : Option String) (st : DbState)
    (id : Int) :
    (get_user fault st id).2 = st := by
  cases fault with
  | some e => rfl
  | none =>
    cases h : findUser st id <;> simp [get_user, h]

end CrudGuide
